import Mathlib

/-!
Ticket-booking client (`client/client.c`): wire codec and per-worker workflow.

A shallow embedding of `client/client.c`.

* Memory is a list of bytes (`List Nat`, every entry below 256).  A C struct
  is a Lean structure together with its memory image (`toBytes` / `ofBytes`).
* `common.h` is not part of the sources at hand.  What `client.c` takes from
  it is either a parameter (`Common`: the opcode constants and the cipher
  key) or a definition marked `Modelled from the spec:`.
* Socket calls are inputs: an `Exchange` says what `write_n_bytes` and
  `read_n_bytes` report during one request/response round trip.
* The function-local `static uint16_t req_id_counter`s are an explicit state
  (`Counters`) threaded through the calls.
* `exit(EXIT_FAILURE)` is an outcome after which nothing else happens.
-/

namespace Client

/-! ## Bytes and fixed-width integers -/

/-- Every entry of a memory region is a byte. -/
def IsBytes (data : List Nat) : Prop := ∀ b ∈ data, b < 256

instance (data : List Nat) : Decidable (IsBytes data) :=
  inferInstanceAs (Decidable (∀ b ∈ data, b < 256))

/-- Memory image of a `uint16_t` (little-endian host). -/
def u16_bytes (v : Nat) : List Nat := [v % 256, v / 256 % 256]

/-- Memory image of a `uint32_t` (little-endian host). -/
def u32_bytes (v : Nat) : List Nat :=
  [v % 256, v / 256 % 256, v / 65536 % 256, v / 16777216 % 256]

/-- Read a `uint16_t` at byte offset `off`. -/
def u16_at (mem : List Nat) (off : Nat) : Nat :=
  mem.getD off 0 + 256 * mem.getD (off + 1) 0

/-- Read a `uint32_t` at byte offset `off`. -/
def u32_at (mem : List Nat) (off : Nat) : Nat :=
  mem.getD off 0 + 256 * mem.getD (off + 1) 0 + 65536 * mem.getD (off + 2) 0
    + 16777216 * mem.getD (off + 3) 0

/-- Memory image of an `int` (32-bit, twos complement). -/
def int_bytes (v : Int) : List Nat := u32_bytes (v % 4294967296).toNat

/-! ## What `client.c` uses from `common.h` -/

/-- Constants of `common.h` whose values are not in the sources at hand: the
four opcodes `client.c` names and the fixed key of `xor_cipher`. -/
structure Common where
  OP_LOGIN : Nat
  OP_QUERY_AVAILABILITY : Nat
  OP_BOOK_TICKET : Nat
  OP_RESPONSE_SUCCESS : Nat
  key : Nat

/-- Modelled from the spec: the `ProtocolHeader` struct of `common.h` is
missing.  Fields and their order are those of the wire-frame table (packet
length, opcode, request id, session id, checksum); the widths are the types
`client.c` gives the values it stores there (`uint16_t` request ids,
`uint32_t` session id and checksum). -/
structure ProtocolHeader where
  packet_len : Nat
  opcode : Nat
  req_id : Nat
  session_id : Nat
  checksum : Nat
deriving DecidableEq

/-- The value of `sizeof(ProtocolHeader)` under the modelled layout. -/
def sizeof_ProtocolHeader : Nat := 16

/-- The value of `sizeof(BookRequest)`: two `int` fields. -/
def sizeof_BookRequest : Nat := 8

/-- Every field holds a value of its C type. -/
def ProtocolHeader.InRange (h : ProtocolHeader) : Prop :=
  h.packet_len < 4294967296 ∧ h.opcode < 65536 ∧ h.req_id < 65536 ∧
    h.session_id < 4294967296 ∧ h.checksum < 4294967296

instance (h : ProtocolHeader) : Decidable h.InRange :=
  inferInstanceAs (Decidable (_ ∧ _))

/-- Modelled from the spec: memory image of a `ProtocolHeader` (layout of
`common.h` missing): the five fields in order, no padding, 16 bytes. -/
def ProtocolHeader.toBytes (h : ProtocolHeader) : List Nat :=
  u32_bytes h.packet_len ++ u16_bytes h.opcode ++ u16_bytes h.req_id ++
    u32_bytes h.session_id ++ u32_bytes h.checksum

/-- Modelled from the spec: the struct a 16-byte buffer filled by
`read_n_bytes` is read as (inverse of `toBytes`). -/
def ProtocolHeader.ofBytes (mem : List Nat) : ProtocolHeader :=
  { packet_len := u32_at mem 0
    opcode := u16_at mem 4
    req_id := u16_at mem 6
    session_id := u32_at mem 8
    checksum := u32_at mem 12 }

/-- Modelled from the spec: `BookRequest` of `common.h` (missing), "requested
ticket count (integer), user id (integer)", as initialised by
`book_tickets`. -/
structure BookRequest where
  num_tickets : Int
  user_id : Int
deriving DecidableEq

/-- Memory image of a `BookRequest`. -/
def BookRequest.toBytes (b : BookRequest) : List Nat :=
  int_bytes b.num_tickets ++ int_bytes b.user_id

/-- Modelled from the spec: `remaining_tickets` of a `ServerResponse`
("remaining ticket count (unsigned)", first field). -/
def remaining_tickets (res_body : List Nat) : Nat := u32_at res_body 0

/-- Modelled from the spec: `message` of a `ServerResponse` as `%s` prints
it: the bytes after the count up to the first NUL. -/
def message (res_body : List Nat) : List Nat :=
  (res_body.drop 4).takeWhile (fun b => b != 0)

/-- Modelled from the spec: `calculate_checksum` is defined in the missing
`common` module; "a deterministic additive function over the raw byte
sequence (sum of byte-level contributions)", result a `uint32_t`. -/
def calculate_checksum (data : List Nat) : Nat :=
  data.foldl (fun sum b => (sum + b) % 4294967296) 0

/-- Modelled from the spec: `xor_cipher` is defined in the missing `common`
module; "a single reversible transform ... using a fixed shared key", a
"reversible XOR-style transform": every byte is XORed with the key byte. -/
def xor_cipher (key : Nat) (data : List Nat) : List Nat :=
  data.map (fun b => (b ^^^ key) % 256)

/-! ## Process state and socket behaviour -/

/-- The three `static uint16_t req_id_counter` variables. -/
structure Counters where
  login : Nat
  query : Nat
  book : Nat
deriving DecidableEq

/-- Their initialisers: `= 0`, `= 100`, `= 200`. -/
def Counters.init : Counters := { login := 0, query := 100, book := 200 }

/-- Every counter holds a `uint16_t`. -/
def Counters.InRange (ctr : Counters) : Prop :=
  ctr.login < 65536 ∧ ctr.query < 65536 ∧ ctr.book < 65536

instance (ctr : Counters) : Decidable ctr.InRange :=
  inferInstanceAs (Decidable (_ ∧ _))

/-- What the socket does during one round trip: whether each
`write_n_bytes` reports success (`> 0`), and what each `read_n_bytes` puts in
the buffer (`none`: it returned `<= 0`). -/
structure Exchange where
  write_header : Bool
  write_body : Bool
  read_header : Option (List Nat)
  read_body : Option (List Nat)

/-! ## The response check shared by the three operations -/

/-- Lines 164-169 (the same statements at 227-231 and 301-305): save the
received checksum, zero the field, recompute over header and body, compare.
`true` when `calc_sum == received_checksum`. -/
def verify_checksum (res_header : ProtocolHeader) (res_body : List Nat) : Bool :=
  let received_checksum := res_header.checksum
  let res_header := { res_header with checksum := 0 }
  let calc_sum := calculate_checksum res_header.toBytes
  let calc_sum := (calc_sum + calculate_checksum res_body) % 4294967296
  calc_sum == received_checksum

/-! ## `perform_login` -/

/-- How `perform_login` ends.  Every constructor but `session` is a call of
`exit(EXIT_FAILURE)`; `exit_login_failed` prints `res_body.message`. -/
inductive LoginOutcome where
  | exit_send_failed
  | exit_read_header_failed
  | exit_read_body_failed
  | exit_checksum_mismatch
  | exit_login_failed (msg : List Nat)
  | session (session_id : Nat)
deriving DecidableEq

/-- One call of `perform_login`. -/
structure LoginRun where
  /-- the static counters after the call -/
  counters : Counters
  /-- `req_header` after the checksum is filled in, before `xor_cipher` -/
  req_header : ProtocolHeader
  /-- the buffers handed to `write_n_bytes`, in order -/
  writes : List (List Nat)
  outcome : LoginOutcome
deriving DecidableEq

/-- Model of `perform_login` (lines 124-184). -/
def perform_login (c : Common) (ctr : Counters) (net : Exchange) : LoginRun :=
  let req_header : ProtocolHeader :=
    { packet_len := sizeof_ProtocolHeader
      opcode := c.OP_LOGIN
      req_id := ctr.login
      session_id := 0
      checksum := 0 }
  let ctr := { ctr with login := (ctr.login + 1) % 65536 }
  let req_header := { req_header with checksum := calculate_checksum req_header.toBytes }
  let wire := xor_cipher c.key req_header.toBytes
  let run (o : LoginOutcome) : LoginRun :=
    { counters := ctr, req_header := req_header, writes := [wire], outcome := o }
  if !net.write_header then run .exit_send_failed else
  match net.read_header with
  | none => run .exit_read_header_failed
  | some buf =>
    let res_header := ProtocolHeader.ofBytes (xor_cipher c.key buf)
    match net.read_body with
    | none => run .exit_read_body_failed
    | some buf_body =>
      let res_body := xor_cipher c.key buf_body
      if !verify_checksum res_header res_body then run .exit_checksum_mismatch
      else if res_header.opcode == c.OP_RESPONSE_SUCCESS then
        run (.session res_header.session_id)
      else run (.exit_login_failed (message res_body))

/-! ## `query_availability` and `book_tickets` -/

/-- How `query_availability` and `book_tickets` end: an early `return`, or
the printed result (`req_id`, `opcode`, remaining tickets and message of the
response). -/
inductive OpOutcome where
  | send_failed
  | send_body_failed
  | read_header_failed
  | read_body_failed
  | checksum_mismatch
  | result (req_id opcode remaining : Nat) (msg : List Nat)
deriving DecidableEq

/-- One call of `query_availability` or `book_tickets`. -/
structure OpRun where
  counters : Counters
  /-- `req_header` after the checksum is filled in, before `xor_cipher` -/
  req_header : ProtocolHeader
  /-- `req_body` before `xor_cipher` (empty for a query) -/
  req_body : List Nat
  /-- the buffers handed to `write_n_bytes`, in order -/
  writes : List (List Nat)
  outcome : OpOutcome
deriving DecidableEq

/-- Lines 211-243 and 285-322: read the response, decrypt, verify, print. -/
def read_response (c : Common) (net : Exchange) : OpOutcome :=
  match net.read_header with
  | none => .read_header_failed
  | some buf =>
    let res_header := ProtocolHeader.ofBytes (xor_cipher c.key buf)
    match net.read_body with
    | none => .read_body_failed
    | some buf_body =>
      let res_body := xor_cipher c.key buf_body
      if !verify_checksum res_header res_body then .checksum_mismatch
      else .result res_header.req_id res_header.opcode (remaining_tickets res_body)
        (message res_body)

/-- Model of `query_availability` (lines 186-244). -/
def query_availability (c : Common) (ctr : Counters) (net : Exchange)
    (session_id : Nat) : OpRun :=
  let req_header : ProtocolHeader :=
    { packet_len := sizeof_ProtocolHeader
      opcode := c.OP_QUERY_AVAILABILITY
      req_id := ctr.query
      session_id := session_id
      checksum := 0 }
  let ctr := { ctr with query := (ctr.query + 1) % 65536 }
  let req_header := { req_header with checksum := calculate_checksum req_header.toBytes }
  let wire := xor_cipher c.key req_header.toBytes
  let run (o : OpOutcome) : OpRun :=
    { counters := ctr, req_header := req_header, req_body := [], writes := [wire],
      outcome := o }
  if !net.write_header then run .send_failed else
  run (read_response c net)

/-- Model of `book_tickets` (lines 246-323). -/
def book_tickets (c : Common) (ctr : Counters) (net : Exchange)
    (num_tickets user_id : Int) (session_id : Nat) : OpRun :=
  let req_header : ProtocolHeader :=
    { packet_len := sizeof_ProtocolHeader + sizeof_BookRequest
      opcode := c.OP_BOOK_TICKET
      req_id := ctr.book
      session_id := session_id
      checksum := 0 }
  let ctr := { ctr with book := (ctr.book + 1) % 65536 }
  let req_body : BookRequest := { num_tickets := num_tickets, user_id := user_id }
  let req_header := { req_header with checksum := calculate_checksum req_header.toBytes }
  let req_header := { req_header with
    checksum := (req_header.checksum + calculate_checksum req_body.toBytes) % 4294967296 }
  let wire := xor_cipher c.key req_header.toBytes
  let wire_body := xor_cipher c.key req_body.toBytes
  let run (w : List (List Nat)) (o : OpOutcome) : OpRun :=
    { counters := ctr, req_header := req_header, req_body := req_body.toBytes, writes := w,
      outcome := o }
  if !net.write_header then run [wire] .send_failed else
  if !net.write_body then run [wire, wire_body] .send_body_failed else
  run [wire, wire_body] (read_response c net)

/-! ## `client_thread` -/

/-- The `struct thread_arg` of `client.c`. -/
structure thread_arg where
  action : String
  num_tickets : Int
  user_id : Int
deriving DecidableEq

/-- What a worker did, in order. -/
inductive Step where
  | login (run : LoginRun)
  | query (session_id : Nat) (run : OpRun)
  | book (num_tickets user_id : Int) (session_id : Nat) (run : OpRun)
  | close
deriving DecidableEq

/-- One run of `client_thread`. -/
structure ThreadRun where
  counters : Counters
  steps : List Step
  /-- whether the run ended in `exit(EXIT_FAILURE)` -/
  exited : Bool

/-- Model of `client_thread` (lines 85-122).  `connect_ok` is
`connect_to_server(...) >= 0`; `login_net` and `op_net` are what the socket
does during the login and during the operation. -/
def client_thread (c : Common) (ctr : Counters) (targ : thread_arg) (connect_ok : Bool)
    (login_net op_net : Exchange) : ThreadRun :=
  if !connect_ok then { counters := ctr, steps := [], exited := false } else
  let lr := perform_login c ctr login_net
  match lr.outcome with
  | .session session_id =>
    if targ.action == "query" then
      let r := query_availability c lr.counters op_net session_id
      { counters := r.counters, steps := [.login lr, .query session_id r, .close],
        exited := false }
    else if targ.action == "book" then
      let r := book_tickets c lr.counters op_net targ.num_tickets targ.user_id session_id
      { counters := r.counters,
        steps := [.login lr, .book targ.num_tickets targ.user_id session_id r, .close],
        exited := false }
    else { counters := lr.counters, steps := [.login lr, .close], exited := false }
  | _ => { counters := lr.counters, steps := [.login lr], exited := true }

/-- Whether a step is an application operation (a call of
`query_availability` or of `book_tickets`). -/
def Step.isOperation : Step → Bool
  | .query _ _ => true
  | .book _ _ _ _ => true
  | _ => false

/-- The request header an operation step built (before `xor_cipher`). -/
def Step.opHeader : Step → Option ProtocolHeader
  | .query _ r => some r.req_header
  | .book _ _ _ r => some r.req_header
  | _ => none

/-! ## `main`: argument checks and worker identities -/

/-- Lines 39-59 of `main`: the checks on the arguments once `atoi` has read
them.  `tickets` is `atoi(argv[3])` when there is an `argv[3]`.  The result
is the `num_threads`, `action` and `num_tickets` the workers are created
from; `none` is `exit(EXIT_FAILURE)`. -/
def main_args (num_threads : Int) (action : String) (tickets : Option Int) :
    Option (Int × String × Int) :=
  if num_threads ≤ 0 then none
  else if action == "book" then
    match tickets with
    | none => none
    | some t => if t ≤ 0 then none else some (num_threads, action, t)
  else some (num_threads, action, 0)

/-- Arithmetic on `int`: the result of an operation, wrapped to 32 bits in
twos complement (what the machine does where C leaves overflow undefined). -/
def wrap_int (v : Int) : Int := (v + 2147483648) % 4294967296 - 2147483648

/-- Line 69: `rand() % 10000 + i * 10000`, for the value `r` that `rand()`
returned (never negative) and the loop index `i`. -/
def user_id (r : Nat) (i : Nat) : Int :=
  wrap_int (((r % 10000 : Nat) : Int) + wrap_int ((i : Int) * 10000))

/-- Lines 66-75: the `args` array `main` fills, `rand i` being the value of
the call of `rand()` in iteration `i`. -/
def main_thread_args (num_threads : Nat) (action : String) (num_tickets : Int)
    (rand : Nat → Nat) : List thread_arg :=
  (List.range num_threads).map fun i =>
    { action := action, num_tickets := num_tickets, user_id := user_id (rand i) i }

/-! ## The requests of one connection -/

/-- The request header a step built (before `xor_cipher`), when the step is a
call of one of the three operations. -/
def Step.request : Step → Option ProtocolHeader
  | .login r => some r.req_header
  | .query _ r => some r.req_header
  | .book _ _ _ r => some r.req_header
  | .close => none

/-- The `(opcode, req_id)` pairs of the requests a worker built on its
connection, in order. -/
def connection_request_ids (run : ThreadRun) : List (Nat × Nat) :=
  run.steps.filterMap fun s => s.request.map fun h => (h.opcode, h.req_id)

/-! ## The codec steps as the spec names them -/

/-- Lines 264-271 (`book_tickets`), for any header and body: start from a
zero checksum field, fill in `checksum(header) + checksum(body)`, encrypt
the header, encrypt the body.  The result is what goes on the wire. -/
def encode_request (key : Nat) (h : ProtocolHeader) (body : List Nat) :
    List Nat × List Nat :=
  let req_header := { h with checksum := 0 }
  let req_header := { req_header with checksum := calculate_checksum req_header.toBytes }
  let req_header := { req_header with
    checksum := (req_header.checksum + calculate_checksum body) % 4294967296 }
  (xor_cipher key req_header.toBytes, xor_cipher key body)

/-- Lines 286-308 (`book_tickets`; the same at 146-172 and 212-234): decrypt
the header, decrypt the body, verify.  `none` is the checksum mismatch;
otherwise the header (its checksum field zeroed by the check) and the body
as the rest of the function reads them. -/
def decode_response (key : Nat) (wire_header wire_body : List Nat) :
    Option (ProtocolHeader × List Nat) :=
  let res_header := ProtocolHeader.ofBytes (xor_cipher key wire_header)
  let res_body := xor_cipher key wire_body
  if !verify_checksum res_header res_body then none
  else some ({ res_header with checksum := 0 }, res_body)

/-! ## A concrete server answer, for examples -/

/-- Sample values for the constants of `common.h`. -/
def demo_common : Common :=
  { OP_LOGIN := 1, OP_QUERY_AVAILABILITY := 2, OP_BOOK_TICKET := 3,
    OP_RESPONSE_SUCCESS := 16, key := 90 }

/-- Encrypted header of a response with opcode 16, request id 100 and
session id 42, its checksum right for `demo_wire_body`. -/
def demo_wire_header : List Nat :=
  [74, 91, 90, 90, 74, 90, 62, 90, 112, 90, 90, 90, 10, 91, 90, 90]

/-- Encrypted body: 7 remaining tickets, message "OK". -/
def demo_wire_body : List Nat := [93, 90, 90, 90, 21, 17, 90, 90]

/-- A socket on which every write succeeds and the sample response arrives. -/
def demo_net : Exchange :=
  { write_header := true, write_body := true, read_header := some demo_wire_header,
    read_body := some demo_wire_body }

/-! ## Lemmas on the codec -/

theorem xor_byte_twice (key b : Nat) (hb : b < 256) :
    (((b ^^^ key) % 256) ^^^ key) % 256 = b := by
  apply Nat.eq_of_testBit_eq
  intro i
  have h256 : (256 : Nat) = 2 ^ 8 := by norm_num
  rw [h256]
  simp only [Nat.testBit_mod_two_pow, Nat.testBit_xor]
  by_cases hi : i < 8
  · simp [hi]
  · have hbit : b.testBit i = false := by
      apply Nat.testBit_lt_two_pow
      calc b < 2 ^ 8 := by omega
        _ ≤ 2 ^ i := Nat.pow_le_pow_right (by norm_num) (by omega)
    simp [hi, hbit]

theorem xor_cipher_twice (key : Nat) (x : List Nat) (hx : IsBytes x) :
    xor_cipher key (xor_cipher key x) = x := by
  induction x with
  | nil => rfl
  | cons b t ih =>
    have hb : b < 256 := hx b (List.mem_cons_self b t)
    have ht : IsBytes t := fun a ha => hx a (List.mem_cons_of_mem b ha)
    have ih2 := ih ht
    simp only [xor_cipher, List.map_cons, List.map_map] at ih2 ⊢
    rw [xor_byte_twice key b hb, ih2]

theorem xor_cipher_isBytes (key : Nat) (x : List Nat) : IsBytes (xor_cipher key x) := by
  intro b hb
  simp only [xor_cipher, List.mem_map] at hb
  obtain ⟨a, _, rfl⟩ := hb
  exact Nat.mod_lt _ (by norm_num)

theorem xor_cipher_length (key : Nat) (x : List Nat) : (xor_cipher key x).length = x.length := by
  simp [xor_cipher]

theorem foldl_checksum (data : List Nat) (a : Nat) :
    data.foldl (fun sum b => (sum + b) % 4294967296) (a % 4294967296) =
      (a + data.sum) % 4294967296 := by
  induction data generalizing a with
  | nil => simp
  | cons b t ih =>
    simp only [List.foldl_cons, List.sum_cons]
    have h : (a % 4294967296 + b) % 4294967296 = (a + b) % 4294967296 := by omega
    rw [h, ih (a + b), Nat.add_assoc]

theorem calculate_checksum_eq_sum (data : List Nat) :
    calculate_checksum data = data.sum % 4294967296 := by
  have h := foldl_checksum data 0
  simpa [calculate_checksum] using h

theorem calculate_checksum_lt (data : List Nat) : calculate_checksum data < 4294967296 := by
  rw [calculate_checksum_eq_sum]
  exact Nat.mod_lt _ (by norm_num)

theorem toBytes_length (h : ProtocolHeader) : h.toBytes.length = 16 := by
  simp [ProtocolHeader.toBytes, u32_bytes, u16_bytes]

theorem toBytes_isBytes (h : ProtocolHeader) : IsBytes h.toBytes := by
  intro b hb
  simp only [ProtocolHeader.toBytes, u32_bytes, u16_bytes, List.cons_append, List.nil_append,
    List.mem_cons, List.mem_singleton, List.not_mem_nil, or_false] at hb
  omega

theorem ofBytes_toBytes (h : ProtocolHeader) (hr : h.InRange) :
    ProtocolHeader.ofBytes h.toBytes = h := by
  obtain ⟨p, o, r, s, k⟩ := h
  simp only [ProtocolHeader.InRange] at hr
  simp only [ProtocolHeader.ofBytes, ProtocolHeader.toBytes, u32_bytes, u16_bytes, u32_at,
    u16_at, List.cons_append, List.nil_append, List.getD_cons_zero, List.getD_cons_succ,
    ProtocolHeader.mk.injEq]
  omega

theorem list_of_length_16 (m : List Nat) (hlen : m.length = 16) :
    ∃ a0 a1 a2 a3 a4 a5 a6 a7 a8 a9 a10 a11 a12 a13 a14 a15 : Nat,
      m = [a0, a1, a2, a3, a4, a5, a6, a7, a8, a9, a10, a11, a12, a13, a14, a15] := by
  obtain ⟨a0, t0, rfl⟩ := List.exists_cons_of_length_eq_add_one (l := m) (n := 15) (by simpa using hlen)
  obtain ⟨a1, t1, rfl⟩ := List.exists_cons_of_length_eq_add_one (l := t0) (n := 14) (by simpa using hlen)
  obtain ⟨a2, t2, rfl⟩ := List.exists_cons_of_length_eq_add_one (l := t1) (n := 13) (by simpa using hlen)
  obtain ⟨a3, t3, rfl⟩ := List.exists_cons_of_length_eq_add_one (l := t2) (n := 12) (by simpa using hlen)
  obtain ⟨a4, t4, rfl⟩ := List.exists_cons_of_length_eq_add_one (l := t3) (n := 11) (by simpa using hlen)
  obtain ⟨a5, t5, rfl⟩ := List.exists_cons_of_length_eq_add_one (l := t4) (n := 10) (by simpa using hlen)
  obtain ⟨a6, t6, rfl⟩ := List.exists_cons_of_length_eq_add_one (l := t5) (n := 9) (by simpa using hlen)
  obtain ⟨a7, t7, rfl⟩ := List.exists_cons_of_length_eq_add_one (l := t6) (n := 8) (by simpa using hlen)
  obtain ⟨a8, t8, rfl⟩ := List.exists_cons_of_length_eq_add_one (l := t7) (n := 7) (by simpa using hlen)
  obtain ⟨a9, t9, rfl⟩ := List.exists_cons_of_length_eq_add_one (l := t8) (n := 6) (by simpa using hlen)
  obtain ⟨a10, t10, rfl⟩ := List.exists_cons_of_length_eq_add_one (l := t9) (n := 5) (by simpa using hlen)
  obtain ⟨a11, t11, rfl⟩ := List.exists_cons_of_length_eq_add_one (l := t10) (n := 4) (by simpa using hlen)
  obtain ⟨a12, t12, rfl⟩ := List.exists_cons_of_length_eq_add_one (l := t11) (n := 3) (by simpa using hlen)
  obtain ⟨a13, t13, rfl⟩ := List.exists_cons_of_length_eq_add_one (l := t12) (n := 2) (by simpa using hlen)
  obtain ⟨a14, t14, rfl⟩ := List.exists_cons_of_length_eq_add_one (l := t13) (n := 1) (by simpa using hlen)
  obtain ⟨a15, t15, rfl⟩ := List.exists_cons_of_length_eq_add_one (l := t14) (n := 0) (by simpa using hlen)
  have hnil : t15 = [] := List.eq_nil_of_length_eq_zero (by simpa using hlen)
  subst hnil
  exact ⟨a0, a1, a2, a3, a4, a5, a6, a7, a8, a9, a10, a11, a12, a13, a14, a15, rfl⟩

theorem toBytes_ofBytes (m : List Nat) (hlen : m.length = 16) (hm : IsBytes m) :
    (ProtocolHeader.ofBytes m).toBytes = m := by
  obtain ⟨a0, a1, a2, a3, a4, a5, a6, a7, a8, a9, a10, a11, a12, a13, a14, a15, rfl⟩ := list_of_length_16 m hlen
  simp only [IsBytes, List.mem_cons, List.mem_singleton, List.not_mem_nil, or_false,
    forall_eq_or_imp, forall_eq] at hm
  simp only [ProtocolHeader.ofBytes, ProtocolHeader.toBytes, u32_bytes, u16_bytes, u32_at,
    u16_at, List.cons_append, List.nil_append, List.getD_cons_zero, List.getD_cons_succ,
    List.cons.injEq, and_true]
  omega

theorem ofBytes_inRange (m : List Nat) (hlen : m.length = 16) (hm : IsBytes m) :
    (ProtocolHeader.ofBytes m).InRange := by
  obtain ⟨a0, a1, a2, a3, a4, a5, a6, a7, a8, a9, a10, a11, a12, a13, a14, a15, rfl⟩ := list_of_length_16 m hlen
  simp only [IsBytes, List.mem_cons, List.mem_singleton, List.not_mem_nil, or_false,
    forall_eq_or_imp, forall_eq] at hm
  simp only [ProtocolHeader.InRange, ProtocolHeader.ofBytes, u32_at,
    u16_at, List.getD_cons_zero, List.getD_cons_succ]
  omega

theorem sum_set_add (l : List Nat) (j v : Nat) (hj : j < l.length) :
    (l.set j v).sum + l.getD j 0 = l.sum + v := by
  induction l generalizing j with
  | nil => simp at hj
  | cons a t ih =>
    cases j with
    | zero => simp; omega
    | succ k =>
      have hk : k < t.length := by simpa using hj
      have := ih k hk
      simp only [List.set_cons_succ, List.sum_cons, List.getD_cons_succ]
      omega

theorem toBytes_zeroed (m : List Nat) (hlen : m.length = 16) (hm : IsBytes m) :
    ({ ProtocolHeader.ofBytes m with checksum := 0 } : ProtocolHeader).toBytes =
      m.take 12 ++ [0, 0, 0, 0] := by
  obtain ⟨a0, a1, a2, a3, a4, a5, a6, a7, a8, a9, a10, a11, a12, a13, a14, a15, rfl⟩ := list_of_length_16 m hlen
  simp only [IsBytes, List.mem_cons, List.mem_singleton, List.not_mem_nil, or_false,
    forall_eq_or_imp, forall_eq] at hm
  simp only [ProtocolHeader.ofBytes, ProtocolHeader.toBytes, u32_bytes, u16_bytes, u32_at,
    u16_at, List.cons_append, List.nil_append, List.getD_cons_zero, List.getD_cons_succ,
    List.take_succ_cons, List.take_zero, List.cons.injEq, and_true]
  omega

theorem verify_ofBytes (m e : List Nat) (hlen : m.length = 16) (hm : IsBytes m) :
    verify_checksum (ProtocolHeader.ofBytes m) e = true ↔
      u32_at m 12 = ((m.take 12).sum + e.sum) % 4294967296 := by
  have hck : (ProtocolHeader.ofBytes m).checksum = u32_at m 12 := rfl
  simp only [verify_checksum, toBytes_zeroed m hlen hm, calculate_checksum_eq_sum, hck,
    List.sum_append, List.sum_cons, List.sum_nil, beq_iff_eq]
  omega

theorem isBytes_set (l : List Nat) (j v : Nat) (hl : IsBytes l) (hv : v < 256) :
    IsBytes (l.set j v) := by
  intro b hb
  rcases List.mem_or_eq_of_mem_set hb with h | h
  · exact hl b h
  · omega

theorem getD_lt_of_isBytes (l : List Nat) (j : Nat) (hl : IsBytes l) : l.getD j 0 < 256 := by
  by_cases hj : j < l.length
  · rw [List.getD_eq_getElem l 0 hj]
    exact hl _ (List.getElem_mem hj)
  · rw [List.getD_eq_default l 0 (by omega)]
    norm_num

theorem tamper_decoded (m e : List Nat) (hlen : m.length = 16) (hm : IsBytes m)
    (he : IsBytes e) (i w : Nat) (hi : i < 16 + e.length) (hw : w < 256)
    (hne : (m ++ e).getD i 0 ≠ w)
    (hok : verify_checksum (ProtocolHeader.ofBytes m) e = true) :
    verify_checksum (ProtocolHeader.ofBytes (((m ++ e).set i w).take 16))
      (((m ++ e).set i w).drop 16) = false := by
  rw [verify_ofBytes m e hlen hm] at hok
  by_cases h16 : i < 16
  · have hset : (m ++ e).set i w = m.set i w ++ e :=
      List.set_append_left i w (by omega)
    have htake : ((m ++ e).set i w).take 16 = m.set i w := by
      rw [hset]; exact List.take_left' (by simp [hlen])
    have hdrop : ((m ++ e).set i w).drop 16 = e := by
      rw [hset]; exact List.drop_left' (by simp [hlen])
    rw [htake, hdrop]
    have hm2 : IsBytes (m.set i w) := isBytes_set m i w hm hw
    rw [Bool.eq_false_iff]
    intro hv
    rw [verify_ofBytes _ e (by simp [hlen]) hm2] at hv
    obtain ⟨a0, a1, a2, a3, a4, a5, a6, a7, a8, a9, a10, a11, a12, a13, a14, a15, rfl⟩ := list_of_length_16 m hlen
    simp only [IsBytes, List.mem_cons, List.mem_singleton, List.not_mem_nil, or_false,
      forall_eq_or_imp, forall_eq] at hm
    interval_cases i <;>
      simp only [List.set_cons_zero, List.set_cons_succ, u32_at, List.getD_cons_zero,
        List.getD_cons_succ, List.take_succ_cons, List.take_zero, List.sum_cons, List.sum_nil,
        List.cons_append, ne_eq] at hok hv hne <;>
      omega
  · have hset : (m ++ e).set i w = m ++ e.set (i - 16) w := by
      rw [List.set_append_right i w (by omega), hlen]
    have htake : ((m ++ e).set i w).take 16 = m := by
      rw [hset]; exact List.take_left' hlen
    have hdrop : ((m ++ e).set i w).drop 16 = e.set (i - 16) w := by
      rw [hset]; exact List.drop_left' hlen
    rw [htake, hdrop]
    rw [Bool.eq_false_iff]
    intro hv
    rw [verify_ofBytes m _ hlen hm] at hv
    have hsum := sum_set_add e (i - 16) w (by omega)
    have hget : (m ++ e).getD i 0 = e.getD (i - 16) 0 := by
      simp only [List.getD_eq_getElem?_getD]
      rw [List.getElem?_append_right (by omega), hlen]
    have hlt := getD_lt_of_isBytes e (i - 16) he
    rw [hget] at hne
    omega

theorem xor_byte_injective (key x v : Nat) (hx : x < 256) (hv : v < 256) (hne : x ≠ v) :
    (x ^^^ key) % 256 ≠ (v ^^^ key) % 256 := by
  intro h
  have h1 := xor_byte_twice key x hx
  have h2 := xor_byte_twice key v hv
  rw [h] at h1
  omega

theorem xor_cipher_getD (key : Nat) (l : List Nat) (i : Nat) (hi : i < l.length) :
    (xor_cipher key l).getD i 0 = (l.getD i 0 ^^^ key) % 256 := by
  rw [List.getD_eq_getElem _ 0 (by simpa [xor_cipher] using hi), List.getD_eq_getElem l 0 hi]
  simp [xor_cipher]

theorem tamper_wire (key : Nat) (hb bb : List Nat) (i v : Nat)
    (hlen : hb.length = 16) (hhb : IsBytes hb) (hbb : IsBytes bb)
    (hi : i < (hb ++ bb).length) (hv : v < 256) (hne : (hb ++ bb).getD i 0 ≠ v)
    (hok : verify_checksum (ProtocolHeader.ofBytes (xor_cipher key hb)) (xor_cipher key bb) =
      true) :
    verify_checksum (ProtocolHeader.ofBytes (xor_cipher key (((hb ++ bb).set i v).take 16)))
      (xor_cipher key (((hb ++ bb).set i v).drop 16)) = false := by
  have h1 : xor_cipher key (((hb ++ bb).set i v).take 16) =
      (((xor_cipher key hb ++ xor_cipher key bb).set i ((v ^^^ key) % 256)).take 16) := by
    simp [xor_cipher]
  have h2 : xor_cipher key (((hb ++ bb).set i v).drop 16) =
      (((xor_cipher key hb ++ xor_cipher key bb).set i ((v ^^^ key) % 256)).drop 16) := by
    simp [xor_cipher]
  rw [h1, h2]
  have happ : xor_cipher key hb ++ xor_cipher key bb = xor_cipher key (hb ++ bb) := by
    simp [xor_cipher]
  apply tamper_decoded _ _ (by simp [xor_cipher_length, hlen]) (xor_cipher_isBytes key hb)
    (xor_cipher_isBytes key bb) i _ (by
      simp only [List.length_append, xor_cipher_length] at hi ⊢
      omega) (Nat.mod_lt _ (by norm_num)) _ hok
  rw [happ, xor_cipher_getD key _ i hi]
  have hx : (hb ++ bb).getD i 0 < 256 := by
    apply getD_lt_of_isBytes
    intro b hmem
    rcases List.mem_append.mp hmem with h | h
    · exact hhb b h
    · exact hbb b h
  exact xor_byte_injective key _ v hx hv hne

/-! ## Lemmas on the three operations -/

theorem verify_checksum_iff (h : ProtocolHeader) (b : List Nat) :
    verify_checksum h b = true ↔
      h.checksum = (calculate_checksum ({ h with checksum := 0 } : ProtocolHeader).toBytes +
        calculate_checksum b) % 4294967296 := by
  simp only [verify_checksum, beq_iff_eq]
  exact eq_comm

theorem perform_login_counters (c : Common) (ctr : Counters) (net : Exchange) :
    (perform_login c ctr net).counters = { ctr with login := (ctr.login + 1) % 65536 } := by
  unfold perform_login
  simp only []
  repeat (first | rfl | split)

theorem perform_login_req_header (c : Common) (ctr : Counters) (net : Exchange) :
    (perform_login c ctr net).req_header =
      { packet_len := 16, opcode := c.OP_LOGIN, req_id := ctr.login, session_id := 0,
        checksum := calculate_checksum
          ({ packet_len := 16, opcode := c.OP_LOGIN, req_id := ctr.login, session_id := 0,
             checksum := 0 } : ProtocolHeader).toBytes } := by
  unfold perform_login
  simp only []
  repeat (first | rfl | split)

theorem perform_login_writes (c : Common) (ctr : Counters) (net : Exchange) :
    (perform_login c ctr net).writes =
      [xor_cipher c.key (perform_login c ctr net).req_header.toBytes] := by
  rw [perform_login_req_header]
  unfold perform_login
  simp only []
  repeat (first | rfl | split)

theorem perform_login_outcome (c : Common) (ctr : Counters) (w : Bool) (hb bb : List Nat) :
    (perform_login c ctr ⟨true, w, some hb, some bb⟩).outcome =
      if verify_checksum (ProtocolHeader.ofBytes (xor_cipher c.key hb)) (xor_cipher c.key bb) =
          true then
        (if (ProtocolHeader.ofBytes (xor_cipher c.key hb)).opcode = c.OP_RESPONSE_SUCCESS
          then LoginOutcome.session (ProtocolHeader.ofBytes (xor_cipher c.key hb)).session_id
          else LoginOutcome.exit_login_failed (message (xor_cipher c.key bb)))
      else LoginOutcome.exit_checksum_mismatch := by
  simp only [perform_login]
  by_cases hv : verify_checksum (ProtocolHeader.ofBytes (xor_cipher c.key hb))
      (xor_cipher c.key bb) = true
  · by_cases ho : (ProtocolHeader.ofBytes (xor_cipher c.key hb)).opcode = c.OP_RESPONSE_SUCCESS
    · simp [hv, ho]
    · simp [hv, ho]
  · simp [hv]

theorem read_response_outcome (c : Common) (w1 w2 : Bool) (hb bb : List Nat) :
    read_response c ⟨w1, w2, some hb, some bb⟩ =
      if verify_checksum (ProtocolHeader.ofBytes (xor_cipher c.key hb)) (xor_cipher c.key bb) =
          true then
        OpOutcome.result (ProtocolHeader.ofBytes (xor_cipher c.key hb)).req_id
          (ProtocolHeader.ofBytes (xor_cipher c.key hb)).opcode
          (remaining_tickets (xor_cipher c.key bb)) (message (xor_cipher c.key bb))
      else OpOutcome.checksum_mismatch := by
  simp only [read_response]
  by_cases hv : verify_checksum (ProtocolHeader.ofBytes (xor_cipher c.key hb))
      (xor_cipher c.key bb) = true
  · simp [hv]
  · simp [hv]

theorem query_availability_counters (c : Common) (ctr : Counters) (net : Exchange)
    (sid : Nat) :
    (query_availability c ctr net sid).counters =
      { ctr with query := (ctr.query + 1) % 65536 } := by
  unfold query_availability
  simp only []
  repeat (first | rfl | split)

theorem query_availability_req_header (c : Common) (ctr : Counters) (net : Exchange)
    (sid : Nat) :
    (query_availability c ctr net sid).req_header =
      { packet_len := 16, opcode := c.OP_QUERY_AVAILABILITY, req_id := ctr.query,
        session_id := sid,
        checksum := calculate_checksum
          ({ packet_len := 16, opcode := c.OP_QUERY_AVAILABILITY, req_id := ctr.query,
             session_id := sid, checksum := 0 } : ProtocolHeader).toBytes } := by
  unfold query_availability
  simp only []
  repeat (first | rfl | split)

theorem query_availability_outcome (c : Common) (ctr : Counters) (net : Exchange)
    (sid : Nat) (hw : net.write_header = true) :
    (query_availability c ctr net sid).outcome = read_response c net := by
  simp [query_availability, hw]

theorem book_tickets_counters (c : Common) (ctr : Counters) (net : Exchange)
    (n u : Int) (sid : Nat) :
    (book_tickets c ctr net n u sid).counters =
      { ctr with book := (ctr.book + 1) % 65536 } := by
  unfold book_tickets
  simp only []
  repeat (first | rfl | split)

theorem book_tickets_req_header (c : Common) (ctr : Counters) (net : Exchange)
    (n u : Int) (sid : Nat) :
    (book_tickets c ctr net n u sid).req_header =
      { packet_len := 24, opcode := c.OP_BOOK_TICKET, req_id := ctr.book,
        session_id := sid,
        checksum := (calculate_checksum
          ({ packet_len := 24, opcode := c.OP_BOOK_TICKET, req_id := ctr.book,
             session_id := sid, checksum := 0 } : ProtocolHeader).toBytes +
          calculate_checksum (BookRequest.toBytes ⟨n, u⟩)) % 4294967296 } := by
  unfold book_tickets
  simp only []
  repeat (first | rfl | split)

theorem book_tickets_req_body (c : Common) (ctr : Counters) (net : Exchange)
    (n u : Int) (sid : Nat) :
    (book_tickets c ctr net n u sid).req_body = BookRequest.toBytes ⟨n, u⟩ := by
  unfold book_tickets
  simp only []
  repeat (first | rfl | split)

theorem book_tickets_outcome (c : Common) (ctr : Counters) (net : Exchange)
    (n u : Int) (sid : Nat) (hw : net.write_header = true) (hw2 : net.write_body = true) :
    (book_tickets c ctr net n u sid).outcome = read_response c net := by
  simp [book_tickets, hw, hw2]

theorem query_availability_writes (c : Common) (ctr : Counters) (net : Exchange)
    (sid : Nat) :
    (query_availability c ctr net sid).writes =
      [xor_cipher c.key (query_availability c ctr net sid).req_header.toBytes] := by
  rw [query_availability_req_header]
  unfold query_availability
  simp only []
  repeat (first | rfl | split)

theorem query_availability_req_body (c : Common) (ctr : Counters) (net : Exchange)
    (sid : Nat) : (query_availability c ctr net sid).req_body = [] := by
  unfold query_availability
  simp only []
  repeat (first | rfl | split)

theorem book_tickets_writes (c : Common) (ctr : Counters) (net : Exchange)
    (n u : Int) (sid : Nat) :
    (book_tickets c ctr net n u sid).writes =
      if net.write_header = true then
        [xor_cipher c.key (book_tickets c ctr net n u sid).req_header.toBytes,
          xor_cipher c.key (book_tickets c ctr net n u sid).req_body]
      else [xor_cipher c.key (book_tickets c ctr net n u sid).req_header.toBytes] := by
  rw [book_tickets_req_header, book_tickets_req_body]
  unfold book_tickets
  simp only []
  cases hw : net.write_header <;> cases hw2 : net.write_body <;> simp <;> rfl

/-! ## Lemmas on `client_thread` -/

theorem perform_login_session (c : Common) (ctr : Counters) (net : Exchange) (sid : Nat)
    (h : (perform_login c ctr net).outcome = LoginOutcome.session sid) :
    net.write_header = true ∧ ∃ hb bb, net.read_header = some hb ∧ net.read_body = some bb ∧
      verify_checksum (ProtocolHeader.ofBytes (xor_cipher c.key hb)) (xor_cipher c.key bb) =
        true ∧
      (ProtocolHeader.ofBytes (xor_cipher c.key hb)).opcode = c.OP_RESPONSE_SUCCESS ∧
      sid = (ProtocolHeader.ofBytes (xor_cipher c.key hb)).session_id := by
  obtain ⟨w1, w2, rh, rb⟩ := net
  cases w1 with
  | false => simp [perform_login] at h
  | true =>
    cases rh with
    | none => simp [perform_login] at h
    | some hb =>
      cases rb with
      | none => simp [perform_login] at h
      | some bb =>
        rw [perform_login_outcome] at h
        by_cases hv : verify_checksum (ProtocolHeader.ofBytes (xor_cipher c.key hb))
            (xor_cipher c.key bb) = true
        · by_cases ho : (ProtocolHeader.ofBytes (xor_cipher c.key hb)).opcode =
              c.OP_RESPONSE_SUCCESS
          · simp only [hv, ho, if_true, LoginOutcome.session.injEq] at h
            exact ⟨rfl, hb, bb, rfl, rfl, hv, ho, h.symm⟩
          · simp [hv, ho] at h
        · simp [hv] at h

theorem client_thread_steps (c : Common) (ctr : Counters) (targ : thread_arg)
    (connect_ok : Bool) (login_net op_net : Exchange) :
    (connect_ok = false ∧ (client_thread c ctr targ connect_ok login_net op_net).steps = []) ∨
    (connect_ok = true ∧ (∀ sid, (perform_login c ctr login_net).outcome ≠ .session sid) ∧
      (client_thread c ctr targ connect_ok login_net op_net).steps =
        [Step.login (perform_login c ctr login_net)]) ∨
    (connect_ok = true ∧ ∃ sid, (perform_login c ctr login_net).outcome = .session sid ∧
      (client_thread c ctr targ connect_ok login_net op_net).steps =
        if targ.action = "query" then
          [Step.login (perform_login c ctr login_net),
            Step.query sid
              (query_availability c (perform_login c ctr login_net).counters op_net sid),
            Step.close]
        else if targ.action = "book" then
          [Step.login (perform_login c ctr login_net),
            Step.book targ.num_tickets targ.user_id sid
              (book_tickets c (perform_login c ctr login_net).counters op_net
                targ.num_tickets targ.user_id sid),
            Step.close]
        else [Step.login (perform_login c ctr login_net), Step.close]) := by
  cases connect_ok with
  | false => left; simp [client_thread]
  | true =>
    right
    cases ho : (perform_login c ctr login_net).outcome with
    | session sid =>
      right
      refine ⟨rfl, sid, rfl, ?_⟩
      simp only [client_thread, ho]
      by_cases hq : targ.action = "query"
      · simp [hq]
      · by_cases hb : targ.action = "book"
        · simp [hb]
        · simp [hq, hb]
    | _ =>
      left
      refine ⟨rfl, by simp, ?_⟩
      simp [client_thread, ho]

/-! ## Lemmas on worker identities -/

theorem user_id_no_overflow (r i : Nat) (hi : i < 214748) :
    user_id r i = ((r % 10000 + i * 10000 : Nat) : Int) := by
  simp only [user_id, wrap_int]
  omega

theorem user_id_unique_small (r1 r2 i j : Nat) (hi : i < 214748) (hj : j < 214748)
    (hij : i ≠ j) : user_id r1 i ≠ user_id r2 j := by
  rw [user_id_no_overflow r1 i hi, user_id_no_overflow r2 j hj]
  omega

theorem main_thread_args_get (n : Nat) (action : String) (num_tickets : Int)
    (rand : Nat → Nat) (i : Nat) (hi : i < n) :
    (main_thread_args n action num_tickets rand)[i]? =
      some { action := action, num_tickets := num_tickets, user_id := user_id (rand i) i } := by
  simp [main_thread_args, List.getElem?_map, List.getElem?_range hi]

/-! ## The codec steps are the steps of the operations -/

theorem book_tickets_writes_encode (c : Common) (ctr : Counters) (net : Exchange)
    (n u : Int) (sid : Nat) (hw : net.write_header = true) :
    (book_tickets c ctr net n u sid).writes =
      [(encode_request c.key
          { packet_len := 24, opcode := c.OP_BOOK_TICKET, req_id := ctr.book,
            session_id := sid, checksum := 0 } (BookRequest.toBytes ⟨n, u⟩)).1,
        (encode_request c.key
          { packet_len := 24, opcode := c.OP_BOOK_TICKET, req_id := ctr.book,
            session_id := sid, checksum := 0 } (BookRequest.toBytes ⟨n, u⟩)).2] := by
  rw [book_tickets_writes, if_pos hw, book_tickets_req_header, book_tickets_req_body]
  rfl

theorem read_response_decode (c : Common) (w1 w2 : Bool) (hb bb : List Nat) :
    read_response c ⟨w1, w2, some hb, some bb⟩ =
      match decode_response c.key hb bb with
      | none => OpOutcome.checksum_mismatch
      | some (h, b) => OpOutcome.result h.req_id h.opcode (remaining_tickets b) (message b) := by
  rw [read_response_outcome]
  simp only [decode_response]
  by_cases hv : verify_checksum (ProtocolHeader.ofBytes (xor_cipher c.key hb))
      (xor_cipher c.key bb) = true
  · simp [hv]
  · simp [hv]

/-! ## The claims -/

/-- C3. Obfuscation involution: `xor_cipher` is the one transform the client
applies both to outgoing and to incoming regions, and applying it twice to
any byte sequence, the empty one included, gives the sequence back. -/
theorem xor_cipher_involution (key : Nat) (x : List Nat) (hx : IsBytes x) :
    xor_cipher key (xor_cipher key x) = x := by
  induction x with
  | nil => rfl
  | cons b t ih =>
    have hb : b < 256 := hx b (List.mem_cons_self b t)
    have ht : IsBytes t := fun a ha => hx a (List.mem_cons_of_mem b ha)
    have ih2 := ih ht
    simp only [xor_cipher, List.map_cons, List.map_map] at ih2 ⊢
    rw [xor_byte_twice key b hb, ih2]

theorem xor_cipher_involution_witness :
    xor_cipher 90 (xor_cipher 90 [0, 255, 17, 90]) = [0, 255, 17, 90] ∧
      xor_cipher 90 (xor_cipher 90 []) = [] :=
  ⟨xor_cipher_involution 90 [0, 255, 17, 90] (by decide),
    xor_cipher_involution 90 [] (by decide)⟩

/-- C1. Checksum round trip: for every header (fields of their C types) and
every body, the decoding steps applied to what the encoding steps put on the
wire pass the checksum comparison and give back the header fields (the
checksum field as the check leaves it, zeroed) and the body, byte for byte;
the decrypted header bytes are the bytes of the header that was encrypted. -/
theorem checksum_round_trip (key : Nat) (h : ProtocolHeader) (body : List Nat)
    (hh : h.InRange) (hbody : IsBytes body) :
    decode_response key (encode_request key h body).1 (encode_request key h body).2 =
        some ({ h with checksum := 0 }, body) ∧
      xor_cipher key (encode_request key h body).1 =
        ({ h with checksum :=
            (calculate_checksum ({ h with checksum := 0 } : ProtocolHeader).toBytes +
              calculate_checksum body) % 4294967296 } : ProtocolHeader).toBytes := by
  obtain ⟨p, o, r, s, k⟩ := h
  simp only [ProtocolHeader.InRange] at hh
  have hr : ProtocolHeader.InRange
      { packet_len := p, opcode := o, req_id := r, session_id := s,
        checksum := (calculate_checksum
          ({ packet_len := p, opcode := o, req_id := r, session_id := s,
             checksum := 0 } : ProtocolHeader).toBytes + calculate_checksum body) %
          4294967296 } := by
    simp only [ProtocolHeader.InRange]
    omega
  simp only [decode_response, encode_request]
  rw [xor_cipher_twice key _ (toBytes_isBytes _), xor_cipher_twice key body hbody,
    ofBytes_toBytes _ hr]
  simp [verify_checksum]

theorem checksum_round_trip_witness :
    decode_response 90
        (encode_request 90 ⟨24, 3, 200, 42, 0⟩ [3, 0, 0, 0, 43, 2, 0, 0]).1
        (encode_request 90 ⟨24, 3, 200, 42, 0⟩ [3, 0, 0, 0, 43, 2, 0, 0]).2 =
      some (⟨24, 3, 200, 42, 0⟩, [3, 0, 0, 0, 43, 2, 0, 0]) :=
  (checksum_round_trip 90 ⟨24, 3, 200, 42, 0⟩ [3, 0, 0, 0, 43, 2, 0, 0]
    (by decide) (by decide)).1

/-- C2. Tamper detection: take a response frame (16 encrypted header bytes,
then the encrypted body bytes) that passes the checksum verification.
Replacing any single byte of the frame by a different byte (a single bit
flipped in the body, for one) makes the verification fail: each of the three
operations then reports the checksum mismatch and no parsed result. -/
theorem tamper_detection (c : Common) (ctr : Counters) (session_id : Nat)
    (num_tickets user_id : Int) (hb bb : List Nat) (i v : Nat)
    (hlen : hb.length = 16) (hhb : IsBytes hb) (hbb : IsBytes bb)
    (hi : i < (hb ++ bb).length) (hv : v < 256) (hne : (hb ++ bb)[i] ≠ v)
    (hok : (query_availability c ctr ⟨true, true, some hb, some bb⟩ session_id).outcome ≠
      OpOutcome.checksum_mismatch) :
    (query_availability c ctr
        ⟨true, true, some (((hb ++ bb).set i v).take 16), some (((hb ++ bb).set i v).drop 16)⟩
        session_id).outcome = OpOutcome.checksum_mismatch ∧
      (book_tickets c ctr
        ⟨true, true, some (((hb ++ bb).set i v).take 16), some (((hb ++ bb).set i v).drop 16)⟩
        num_tickets user_id session_id).outcome = OpOutcome.checksum_mismatch ∧
      (perform_login c ctr
        ⟨true, true, some (((hb ++ bb).set i v).take 16), some (((hb ++ bb).set i v).drop 16)⟩
        ).outcome = LoginOutcome.exit_checksum_mismatch := by
  have hpass : verify_checksum (ProtocolHeader.ofBytes (xor_cipher c.key hb))
      (xor_cipher c.key bb) = true := by
    by_contra hcon
    apply hok
    rw [query_availability_outcome c ctr _ session_id rfl, read_response_outcome, if_neg hcon]
  have hne2 : (hb ++ bb).getD i 0 ≠ v := by
    rw [List.getD_eq_getElem _ 0 hi]
    exact hne
  have hfail := tamper_wire c.key hb bb i v hlen hhb hbb hi hv hne2 hpass
  rw [query_availability_outcome c ctr _ session_id rfl,
    book_tickets_outcome c ctr _ num_tickets user_id session_id rfl rfl,
    read_response_outcome, perform_login_outcome]
  simp [hfail]

theorem tamper_detection_witness :
    (query_availability ⟨1, 2, 3, 16, 90⟩ Counters.init
        ⟨true, true,
          some ((([74, 91, 90, 90, 74, 90, 62, 90, 112, 90, 90, 90, 10, 91, 90, 90] ++
            [93, 90, 90, 90, 21, 17, 90, 90]).set 16 92).take 16),
          some ((([74, 91, 90, 90, 74, 90, 62, 90, 112, 90, 90, 90, 10, 91, 90, 90] ++
            [93, 90, 90, 90, 21, 17, 90, 90]).set 16 92).drop 16)⟩
        42).outcome = OpOutcome.checksum_mismatch :=
  (tamper_detection ⟨1, 2, 3, 16, 90⟩ Counters.init 42 3 555
    [74, 91, 90, 90, 74, 90, 62, 90, 112, 90, 90, 90, 10, 91, 90, 90]
    [93, 90, 90, 90, 21, 17, 90, 90] 16 92 (by decide) (by decide) (by decide) (by decide)
    (by decide) (by decide) (by decide)).1

/-- C4. The checksum field of every request the client builds, as it stands
before `xor_cipher`: for LOGIN and QUERY_AVAILABILITY (no body) it is
`calculate_checksum` of the header with a zero checksum field; for
BOOK_TICKET it is that value plus `calculate_checksum` of the body before
`xor_cipher`, in `uint32_t` addition.  What is handed to `write_n_bytes` is
the `xor_cipher` image of that header (and body). -/
theorem request_checksum_field (c : Common) (ctr : Counters) (net : Exchange)
    (num_tickets user_id : Int) (session_id : Nat) :
    ((perform_login c ctr net).req_header.opcode = c.OP_LOGIN ∧
      (perform_login c ctr net).req_header.checksum =
        calculate_checksum
          ({ (perform_login c ctr net).req_header with checksum := 0 } :
            ProtocolHeader).toBytes ∧
      (perform_login c ctr net).writes =
        [xor_cipher c.key (perform_login c ctr net).req_header.toBytes]) ∧
    ((query_availability c ctr net session_id).req_header.opcode = c.OP_QUERY_AVAILABILITY ∧
      (query_availability c ctr net session_id).req_body = [] ∧
      (query_availability c ctr net session_id).req_header.checksum =
        calculate_checksum
          ({ (query_availability c ctr net session_id).req_header with checksum := 0 } :
            ProtocolHeader).toBytes ∧
      (query_availability c ctr net session_id).writes =
        [xor_cipher c.key (query_availability c ctr net session_id).req_header.toBytes]) ∧
    ((book_tickets c ctr net num_tickets user_id session_id).req_header.opcode =
        c.OP_BOOK_TICKET ∧
      (book_tickets c ctr net num_tickets user_id session_id).req_body =
        BookRequest.toBytes ⟨num_tickets, user_id⟩ ∧
      (book_tickets c ctr net num_tickets user_id session_id).req_header.checksum =
        (calculate_checksum
          ({ (book_tickets c ctr net num_tickets user_id session_id).req_header with
              checksum := 0 } : ProtocolHeader).toBytes +
          calculate_checksum (book_tickets c ctr net num_tickets user_id session_id).req_body) %
          4294967296 ∧
      (book_tickets c ctr net num_tickets user_id session_id).writes =
        if net.write_header then
          [xor_cipher c.key (book_tickets c ctr net num_tickets user_id session_id).req_header.toBytes,
            xor_cipher c.key (book_tickets c ctr net num_tickets user_id session_id).req_body]
        else
          [xor_cipher c.key
            (book_tickets c ctr net num_tickets user_id session_id).req_header.toBytes]) := by
  refine ⟨⟨?_, ?_, perform_login_writes c ctr net⟩,
    ⟨?_, query_availability_req_body c ctr net session_id, ?_,
      query_availability_writes c ctr net session_id⟩,
    ⟨?_, book_tickets_req_body c ctr net num_tickets user_id session_id, ?_, ?_⟩⟩
  · rw [perform_login_req_header]
  · rw [perform_login_req_header]
  · rw [query_availability_req_header]
  · rw [query_availability_req_header]
  · rw [book_tickets_req_header]
  · rw [book_tickets_req_body, book_tickets_req_header]
  · have h := book_tickets_writes c ctr net num_tickets user_id session_id
    cases hw : net.write_header <;> simp [hw] at h ⊢ <;> exact h

/-- C6. Response acceptance: with the header and the body read, each of the
three operations goes past the check exactly when the checksum of the
decrypted header equals `calculate_checksum` of that header with the field
zeroed plus `calculate_checksum` of the decrypted body, in `uint32_t`
arithmetic.  Otherwise the outcome is the bare checksum mismatch: no session
id, no ticket count, no message of the response. -/
theorem response_acceptance (c : Common) (ctr : Counters) (session_id : Nat)
    (num_tickets user_id : Int) (hb bb : List Nat) :
    (perform_login c ctr ⟨true, true, some hb, some bb⟩).outcome =
      (if (ProtocolHeader.ofBytes (xor_cipher c.key hb)).checksum =
          (calculate_checksum
            ({ ProtocolHeader.ofBytes (xor_cipher c.key hb) with checksum := 0 } :
              ProtocolHeader).toBytes + calculate_checksum (xor_cipher c.key bb)) % 4294967296
        then
          (if (ProtocolHeader.ofBytes (xor_cipher c.key hb)).opcode = c.OP_RESPONSE_SUCCESS
            then LoginOutcome.session (ProtocolHeader.ofBytes (xor_cipher c.key hb)).session_id
            else LoginOutcome.exit_login_failed (message (xor_cipher c.key bb)))
        else LoginOutcome.exit_checksum_mismatch) ∧
    (query_availability c ctr ⟨true, true, some hb, some bb⟩ session_id).outcome =
      (if (ProtocolHeader.ofBytes (xor_cipher c.key hb)).checksum =
          (calculate_checksum
            ({ ProtocolHeader.ofBytes (xor_cipher c.key hb) with checksum := 0 } :
              ProtocolHeader).toBytes + calculate_checksum (xor_cipher c.key bb)) % 4294967296
        then OpOutcome.result (ProtocolHeader.ofBytes (xor_cipher c.key hb)).req_id
          (ProtocolHeader.ofBytes (xor_cipher c.key hb)).opcode
          (remaining_tickets (xor_cipher c.key bb)) (message (xor_cipher c.key bb))
        else OpOutcome.checksum_mismatch) ∧
    (book_tickets c ctr ⟨true, true, some hb, some bb⟩ num_tickets user_id session_id).outcome =
      (if (ProtocolHeader.ofBytes (xor_cipher c.key hb)).checksum =
          (calculate_checksum
            ({ ProtocolHeader.ofBytes (xor_cipher c.key hb) with checksum := 0 } :
              ProtocolHeader).toBytes + calculate_checksum (xor_cipher c.key bb)) % 4294967296
        then OpOutcome.result (ProtocolHeader.ofBytes (xor_cipher c.key hb)).req_id
          (ProtocolHeader.ofBytes (xor_cipher c.key hb)).opcode
          (remaining_tickets (xor_cipher c.key bb)) (message (xor_cipher c.key bb))
        else OpOutcome.checksum_mismatch) := by
  rw [query_availability_outcome c ctr _ session_id rfl,
    book_tickets_outcome c ctr _ num_tickets user_id session_id rfl rfl,
    read_response_outcome, perform_login_outcome]
  simp only [verify_checksum_iff, and_self]

/-- C5. Fatal login: whenever a worker performs a query or a book operation,
its connect succeeded, the login request was sent, the login response was
read in full, passed the checksum verification and carried the opcode
RESPONSE_SUCCESS, and the operation is the step right after the login.  So a
login answered by RESPONSE_FAILURE or any other opcode, a failed checksum or
a failed I/O step is never followed by a query or book operation. -/
theorem fatal_login (c : Common) (ctr : Counters) (targ : thread_arg) (connect_ok : Bool)
    (login_net op_net : Exchange) (s : Step)
    (hs : s ∈ (client_thread c ctr targ connect_ok login_net op_net).steps)
    (hop : s.isOperation = true) :
    connect_ok = true ∧ login_net.write_header = true ∧
      (∃ hb bb, login_net.read_header = some hb ∧ login_net.read_body = some bb ∧
        (ProtocolHeader.ofBytes (xor_cipher c.key hb)).checksum =
          (calculate_checksum
            ({ ProtocolHeader.ofBytes (xor_cipher c.key hb) with checksum := 0 } :
              ProtocolHeader).toBytes + calculate_checksum (xor_cipher c.key bb)) %
            4294967296 ∧
        (ProtocolHeader.ofBytes (xor_cipher c.key hb)).opcode = c.OP_RESPONSE_SUCCESS) ∧
      (client_thread c ctr targ connect_ok login_net op_net).steps =
        [Step.login (perform_login c ctr login_net), s, Step.close] ∧
      (client_thread c ctr targ connect_ok login_net op_net).exited = false := by
  rcases client_thread_steps c ctr targ connect_ok login_net op_net with
    ⟨_, h⟩ | ⟨_, _, h⟩ | ⟨hc, sid, hsid, h⟩
  · rw [h] at hs
    simp at hs
  · rw [h] at hs
    simp only [List.mem_singleton] at hs
    subst hs
    simp [Step.isOperation] at hop
  · obtain ⟨hw, hb, bb, hrh, hrb, hv, ho, _⟩ := perform_login_session c ctr login_net sid hsid
    rw [verify_checksum_iff] at hv
    refine ⟨hc, hw, ⟨hb, bb, hrh, hrb, hv, ho⟩, ?_, ?_⟩
    · rw [h] at hs ⊢
      by_cases hq : targ.action = "query"
      · rw [if_pos hq] at hs ⊢
        simp only [List.mem_cons, List.mem_singleton, List.not_mem_nil, or_false] at hs
        rcases hs with rfl | rfl | rfl
        · simp [Step.isOperation] at hop
        · rfl
        · simp [Step.isOperation] at hop
      · by_cases hbk : targ.action = "book"
        · rw [if_neg hq, if_pos hbk] at hs ⊢
          simp only [List.mem_cons, List.mem_singleton, List.not_mem_nil, or_false] at hs
          rcases hs with rfl | rfl | rfl
          · simp [Step.isOperation] at hop
          · rfl
          · simp [Step.isOperation] at hop
        · rw [if_neg hq, if_neg hbk] at hs
          simp only [List.mem_cons, List.mem_singleton, List.not_mem_nil, or_false] at hs
          rcases hs with rfl | rfl
          · simp [Step.isOperation] at hop
          · simp [Step.isOperation] at hop
    · subst hc
      simp only [client_thread, hsid]
      by_cases hq : targ.action = "query"
      · simp [hq]
      · by_cases hbk : targ.action = "book"
        · simp [hbk]
        · simp [hq, hbk]

theorem fatal_login_witness :
    demo_net.write_header = true ∧
      (client_thread demo_common Counters.init ⟨"query", 0, 7⟩ true demo_net demo_net).exited =
        false :=
  have h := fatal_login demo_common Counters.init ⟨"query", 0, 7⟩ true demo_net demo_net
    (Step.query 42 (query_availability demo_common
      (perform_login demo_common Counters.init demo_net).counters demo_net 42))
    (by decide) (by decide)
  ⟨h.2.1, h.2.2.2.2⟩

/-- C7. Session id forwarding: the LOGIN request header carries session id
0; and the session id in the header (before `xor_cipher`) of the query or
book request a worker builds after its login is the `session_id` field of
the decrypted login response header, unchanged. -/
theorem session_id_forwarding (c : Common) :
    (∀ (ctr : Counters) (net : Exchange),
      (perform_login c ctr net).req_header.opcode = c.OP_LOGIN ∧
        (perform_login c ctr net).req_header.session_id = 0) ∧
    (∀ (ctr : Counters) (targ : thread_arg) (connect_ok : Bool) (login_net op_net : Exchange)
      (s : Step) (h : ProtocolHeader),
      s ∈ (client_thread c ctr targ connect_ok login_net op_net).steps →
      s.opHeader = some h →
      ∃ hb, login_net.read_header = some hb ∧
        (perform_login c ctr login_net).outcome =
          LoginOutcome.session (ProtocolHeader.ofBytes (xor_cipher c.key hb)).session_id ∧
        h.session_id = (ProtocolHeader.ofBytes (xor_cipher c.key hb)).session_id) := by
  refine ⟨fun ctr net => by rw [perform_login_req_header]; exact ⟨rfl, rfl⟩, ?_⟩
  intro ctr targ connect_ok login_net op_net s h hs hh
  rcases client_thread_steps c ctr targ connect_ok login_net op_net with
    ⟨_, hst⟩ | ⟨_, _, hst⟩ | ⟨_, sid, hsid, hst⟩
  · rw [hst] at hs
    simp at hs
  · rw [hst] at hs
    simp only [List.mem_singleton] at hs
    subst hs
    simp [Step.opHeader] at hh
  · obtain ⟨_, hb, bb, hrh, _, _, _, hsid2⟩ := perform_login_session c ctr login_net sid hsid
    refine ⟨hb, hrh, by rw [hsid, hsid2], ?_⟩
    rw [← hsid2]
    rw [hst] at hs
    by_cases hq : targ.action = "query"
    · rw [if_pos hq] at hs
      simp only [List.mem_cons, List.mem_singleton, List.not_mem_nil, or_false] at hs
      rcases hs with rfl | rfl | rfl
      · simp [Step.opHeader] at hh
      · simp only [Step.opHeader, Option.some.injEq] at hh
        rw [← hh, query_availability_req_header]
      · simp [Step.opHeader] at hh
    · by_cases hbk : targ.action = "book"
      · rw [if_neg hq, if_pos hbk] at hs
        simp only [List.mem_cons, List.mem_singleton, List.not_mem_nil, or_false] at hs
        rcases hs with rfl | rfl | rfl
        · simp [Step.opHeader] at hh
        · simp only [Step.opHeader, Option.some.injEq] at hh
          rw [← hh, book_tickets_req_header]
        · simp [Step.opHeader] at hh
      · rw [if_neg hq, if_neg hbk] at hs
        simp only [List.mem_cons, List.mem_singleton, List.not_mem_nil, or_false] at hs
        rcases hs with rfl | rfl
        · simp [Step.opHeader] at hh
        · simp [Step.opHeader] at hh

theorem session_id_forwarding_witness :
    ∃ hb, demo_net.read_header = some hb ∧
      (perform_login demo_common Counters.init demo_net).outcome =
        LoginOutcome.session (ProtocolHeader.ofBytes (xor_cipher 90 hb)).session_id ∧
      (book_tickets demo_common (perform_login demo_common Counters.init demo_net).counters
          demo_net 3 555 42).req_header.session_id =
        (ProtocolHeader.ofBytes (xor_cipher 90 hb)).session_id :=
  (session_id_forwarding demo_common).2 Counters.init ⟨"book", 3, 555⟩ true demo_net demo_net
    (Step.book 3 555 42 (book_tickets demo_common
      (perform_login demo_common Counters.init demo_net).counters demo_net 3 555 42))
    _ (by decide) rfl

/-- C8, as stated, fails: the harness accepts the action string "cancel"
(it only checks the thread count and, for "book", the ticket count), the
login of the worker succeeds, and the worker performs no operation. -/
theorem exactly_one_operation_counterexample :
    main_args 1 "cancel" none = some (1, "cancel", 0) ∧
      (perform_login demo_common Counters.init demo_net).outcome = LoginOutcome.session 42 ∧
      ((client_thread demo_common Counters.init ⟨"cancel", 0, 7⟩ true demo_net
        demo_net).steps.filter Step.isOperation).length = 0 := by
  decide

/-- C8, amended: a worker whose login succeeds performs exactly one
application operation when its action is "query" or "book" (a query for
"query", a booking for "book"), between the login and the close; for any
other action string it performs none. -/
theorem one_operation_for_query_or_book (c : Common) (ctr : Counters) (targ : thread_arg)
    (login_net op_net : Exchange) (sid : Nat)
    (hlogin : (perform_login c ctr login_net).outcome = LoginOutcome.session sid) :
    ((client_thread c ctr targ true login_net op_net).steps.filter Step.isOperation).length =
        (if targ.action = "query" ∨ targ.action = "book" then 1 else 0) ∧
      (targ.action = "query" →
        (client_thread c ctr targ true login_net op_net).steps =
          [Step.login (perform_login c ctr login_net),
            Step.query sid
              (query_availability c (perform_login c ctr login_net).counters op_net sid),
            Step.close]) ∧
      (targ.action = "book" →
        (client_thread c ctr targ true login_net op_net).steps =
          [Step.login (perform_login c ctr login_net),
            Step.book targ.num_tickets targ.user_id sid
              (book_tickets c (perform_login c ctr login_net).counters op_net
                targ.num_tickets targ.user_id sid),
            Step.close]) := by
  rcases client_thread_steps c ctr targ true login_net op_net with
    ⟨hc, _⟩ | ⟨_, hno, _⟩ | ⟨_, sid2, hsid, hst⟩
  · simp at hc
  · exact absurd hlogin (hno sid)
  · have hs : sid2 = sid := by
      rw [hlogin] at hsid
      simpa using hsid.symm
    subst hs
    rw [hst]
    by_cases hq : targ.action = "query"
    · simp [hq, Step.isOperation]
    · by_cases hbk : targ.action = "book"
      · simp [hbk, Step.isOperation]
      · simp [hq, hbk, Step.isOperation]

theorem one_operation_for_query_or_book_witness :
    ((client_thread demo_common Counters.init ⟨"query", 0, 7⟩ true demo_net
        demo_net).steps.filter Step.isOperation).length = 1 :=
  (one_operation_for_query_or_book demo_common Counters.init ⟨"query", 0, 7⟩ demo_net demo_net
    42 (by decide)).1

/-- C9 at a failing input: 429497 workers are accepted by the harness, and
when `rand()` returns 0 in iteration 0 and 7296 in iteration 429496 the
workers 0 and 429496 get the same user id, 0 (`429496 * 10000` does not fit
in an `int` and wraps to -7296). -/
theorem user_id_collision :
    main_args 429497 "query" none = some (429497, "query", 0) ∧
      (main_thread_args 429497 "query" 0 (fun i => if i = 0 then 0 else 7296))[0]? =
        some { action := "query", num_tickets := 0, user_id := 0 } ∧
      (main_thread_args 429497 "query" 0 (fun i => if i = 0 then 0 else 7296))[429496]? =
        some { action := "query", num_tickets := 0, user_id := 0 } := by
  refine ⟨by decide, ?_, ?_⟩
  · rw [main_thread_args_get _ _ _ _ 0 (by norm_num)]
    decide
  · rw [main_thread_args_get _ _ _ _ 429496 (by norm_num)]
    decide

/-- C10. Request ids come from three independent counters, one per
operation kind, starting at 0 (login), 100 (query) and 200 (booking).  A call
of an operation puts the value of its own counter in the request and
increments that counter by one (a `uint16_t` increment), leaving the other
two unchanged.  So, the request opcodes being different, the operations of
one connection (the login, then the query or the booking) never reuse the
same `(opcode, req_id)` pair, whatever the counters hold when the worker
starts. -/
theorem request_id_counters (c : Common) :
    (Counters.init.login = 0 ∧ Counters.init.query = 100 ∧ Counters.init.book = 200) ∧
    (∀ (ctr : Counters) (net : Exchange),
      (perform_login c ctr net).req_header.opcode = c.OP_LOGIN ∧
        (perform_login c ctr net).req_header.req_id = ctr.login ∧
        (perform_login c ctr net).counters =
          { ctr with login := (ctr.login + 1) % 65536 }) ∧
    (∀ (ctr : Counters) (net : Exchange) (sid : Nat),
      (query_availability c ctr net sid).req_header.opcode = c.OP_QUERY_AVAILABILITY ∧
        (query_availability c ctr net sid).req_header.req_id = ctr.query ∧
        (query_availability c ctr net sid).counters =
          { ctr with query := (ctr.query + 1) % 65536 }) ∧
    (∀ (ctr : Counters) (net : Exchange) (n u : Int) (sid : Nat),
      (book_tickets c ctr net n u sid).req_header.opcode = c.OP_BOOK_TICKET ∧
        (book_tickets c ctr net n u sid).req_header.req_id = ctr.book ∧
        (book_tickets c ctr net n u sid).counters =
          { ctr with book := (ctr.book + 1) % 65536 }) ∧
    (∀ (ctr : Counters) (targ : thread_arg) (connect_ok : Bool) (login_net op_net : Exchange),
      c.OP_LOGIN ≠ c.OP_QUERY_AVAILABILITY → c.OP_LOGIN ≠ c.OP_BOOK_TICKET →
      (connection_request_ids
        (client_thread c ctr targ connect_ok login_net op_net)).Nodup) := by
  refine ⟨⟨rfl, rfl, rfl⟩, ?_, ?_, ?_, ?_⟩
  · intro ctr net
    rw [perform_login_req_header, perform_login_counters]
    exact ⟨rfl, rfl, rfl⟩
  · intro ctr net sid
    rw [query_availability_req_header, query_availability_counters]
    exact ⟨rfl, rfl, rfl⟩
  · intro ctr net n u sid
    rw [book_tickets_req_header, book_tickets_counters]
    exact ⟨rfl, rfl, rfl⟩
  · intro ctr targ connect_ok login_net op_net h12 h13
    rcases client_thread_steps c ctr targ connect_ok login_net op_net with
      ⟨_, hst⟩ | ⟨_, _, hst⟩ | ⟨_, sid, _, hst⟩
    · simp [connection_request_ids, hst]
    · simp [connection_request_ids, hst, Step.request]
    · simp only [connection_request_ids, hst]
      by_cases hq : targ.action = "query"
      · rw [if_pos hq]
        simp only [List.filterMap_cons, List.filterMap_nil, Step.request, Option.map_some']
        rw [perform_login_req_header, query_availability_req_header]
        simp [h12]
      · by_cases hbk : targ.action = "book"
        · rw [if_neg hq, if_pos hbk]
          simp only [List.filterMap_cons, List.filterMap_nil, Step.request, Option.map_some']
          rw [perform_login_req_header, book_tickets_req_header]
          simp [h13]
        · rw [if_neg hq, if_neg hbk]
          simp [Step.request]

theorem request_id_counters_witness :
    connection_request_ids
        (client_thread demo_common Counters.init ⟨"book", 3, 555⟩ true demo_net demo_net) =
        [(1, 0), (3, 200)] ∧
      (connection_request_ids
        (client_thread demo_common Counters.init ⟨"book", 3, 555⟩ true demo_net
          demo_net)).Nodup :=
  ⟨by decide,
    (request_id_counters demo_common).2.2.2.2 Counters.init ⟨"book", 3, 555⟩ true demo_net
      demo_net (by decide) (by decide)⟩

end Client
